import Mathlib

/-!
Verification of the CredTech_PS dashboard logic.

We shallowly embed the program's pure logic in Lean:
  * the company data model (§3 of the spec),
  * the credit-score calculator `calculateCreditScore`,
  * the grade and risk classification functions `getScoreGrade` and
    `getRiskLevel` from `CreditScoreDisplay`,
  * the selection coordinator of `App.js` as an explicit state-transition
    function `handleCompanySelect` on an `AppState` record.

JavaScript numbers are modelled as rationals (`ℚ`); all the arithmetic in
the program (comparisons, weighted sums, clamping) is exact on the values
involved, so this embedding is faithful for the claims considered here.
-/

namespace CredTech

/-- One point of a company's historical revenue series
(`{ year, revenue }` in the mock data). -/
structure HistoricalPoint where
  year : Nat
  revenue : ℚ
deriving Repr, DecidableEq

/-- A company record, as described by the data model (§3): ticker is the
unique string key; the four dimensionless ratios feed the calculator. -/
structure Company where
  ticker : String
  name : String
  revenue : ℚ
  netIncome : ℚ
  totalAssets : ℚ
  totalDebt : ℚ
  currentRatio : ℚ
  debtRatio : ℚ
  roe : ℚ
  roa : ℚ
  historicalData : List HistoricalPoint
deriving Repr, DecidableEq

/-- Modelled from the spec: the "AAPL" record of the static data set
(§8's sample scenario gives ticker "AAPL" with revenue 100,000,000). -/
def apple : Company :=
  { ticker := "AAPL", name := "Apple Inc.",
    revenue := 100000000, netIncome := 25000000,
    totalAssets := 350000000, totalDebt := 120000000,
    currentRatio := 1.07, debtRatio := 0.34, roe := 1.47, roa := 0.28,
    historicalData := [⟨2020, 274515000⟩, ⟨2021, 365817000⟩, ⟨2022, 394328000⟩] }

/-- Modelled from the spec: a second record of the static data set. -/
def msft : Company :=
  { ticker := "MSFT", name := "Microsoft Corporation",
    revenue := 198270000, netIncome := 72738000,
    totalAssets := 364840000, totalDebt := 78400000,
    currentRatio := 1.78, debtRatio := 0.21, roe := 0.43, roa := 0.19,
    historicalData := [⟨2020, 143015000⟩, ⟨2021, 168088000⟩, ⟨2022, 198270000⟩] }

/-- Modelled from the spec: a third record of the static data set. -/
def googl : Company :=
  { ticker := "GOOGL", name := "Alphabet Inc.",
    revenue := 282836000, netIncome := 59972000,
    totalAssets := 365264000, totalDebt := 28810000,
    currentRatio := 2.38, debtRatio := 0.08, roe := 0.23, roa := 0.16,
    historicalData := [⟨2020, 182527000⟩, ⟨2021, 257637000⟩, ⟨2022, 282836000⟩] }

/-- Modelled from the spec: the static in-memory company list
(`companies` from `src/data/mockData`, whose source file is not in the
provided excerpt).  The spec describes "a fixed array of company records
(financial statement fields + historical revenue series)" with ticker as
unique key; we supply a closed list of three such records. -/
def companies : List Company := [apple, msft, googl]

/-- Modelled from the spec: `calculateCreditScore` from
`src/utils/creditScoreCalculator` (the source file with the exact weights
is not in the provided excerpt).  Per §4.1, it is a pure total function, a
"weighted combination of the four ratios, clamped to [0,100]", monotone
non-decreasing in `currentRatio`, `roe`, `roa` and non-increasing in
`debtRatio`.  We pick concrete nonnegative weights satisfying exactly
those constraints. -/
def calculateCreditScore (c : Company) : ℚ :=
  max 0 (min 100
    (c.currentRatio * 20 + c.roe * 100 + c.roa * 100 + (1 - c.debtRatio) * 30))

/-- `getScoreGrade` from `CreditScoreDisplay`: score → letter grade. -/
def getScoreGrade (score : ℚ) : String :=
  if score ≥ 90 then "AAA"
  else if score ≥ 80 then "AA"
  else if score ≥ 70 then "A"
  else if score ≥ 60 then "BBB"
  else if score ≥ 50 then "BB"
  else if score ≥ 40 then "B"
  else "CCC"

/-- The three lucide icons a risk assessment can carry. -/
inductive RiskIcon where
  | trendingUp
  | minus
  | trendingDown
deriving Repr, DecidableEq

/-- The `{ level, icon }` object returned by `getRiskLevel`. -/
structure Risk where
  level : String
  icon : RiskIcon
deriving Repr, DecidableEq

/-- `getRiskLevel` from `CreditScoreDisplay`: score → risk band. -/
def getRiskLevel (score : ℚ) : Risk :=
  if score ≥ 80 then ⟨"Low Risk", .trendingUp⟩
  else if score ≥ 60 then ⟨"Medium Risk", .minus⟩
  else ⟨"High Risk", .trendingDown⟩

/-- The coordinator's state in `App.js`: the two `useState` hooks
`selectedCompany` and `creditScore`, both initially `null`. -/
structure AppState where
  selectedCompany : Option Company
  creditScore : Option ℚ
deriving Repr, DecidableEq

/-- The initial state of `App`: no company selected, no score. -/
def initialState : AppState := ⟨none, none⟩

/-- `handleCompanySelect` from `App.js`: look the ticker up in
`companies`; if found, replace both state fields (selected company and a
freshly computed score); otherwise leave the state unchanged. -/
def handleCompanySelect (ticker : String) (st : AppState) : AppState :=
  match companies.find? (fun c => c.ticker == ticker) with
  | some company => ⟨some company, some (calculateCreditScore company)⟩
  | none => st

/-- Running a sequence of user selection events from the initial state. -/
def runSelects (events : List String) : AppState :=
  events.foldl (fun st t => handleCompanySelect t st) initialState

/-- C1: `getScoreGrade` follows the fixed threshold table, exact at every
boundary: ≥90 "AAA", 80–89 "AA", 70–79 "A", 60–69 "BBB", 50–59 "BB",
40–49 "B", below 40 "CCC". -/
theorem getScoreGrade_table (s : ℚ) :
    (90 ≤ s → getScoreGrade s = "AAA") ∧
    (80 ≤ s ∧ s < 90 → getScoreGrade s = "AA") ∧
    (70 ≤ s ∧ s < 80 → getScoreGrade s = "A") ∧
    (60 ≤ s ∧ s < 70 → getScoreGrade s = "BBB") ∧
    (50 ≤ s ∧ s < 60 → getScoreGrade s = "BB") ∧
    (40 ≤ s ∧ s < 50 → getScoreGrade s = "B") ∧
    (s < 40 → getScoreGrade s = "CCC") := by
  unfold getScoreGrade
  refine ⟨?_, ?_, ?_, ?_, ?_, ?_, ?_⟩ <;> intro h <;> split_ifs <;>
    first
      | rfl
      | (exfalso; obtain ⟨h1, h2⟩ := h; linarith)
      | (exfalso; linarith)

/-- C1 witness: the table at the boundaries 90 and 89. -/
theorem getScoreGrade_table_witness :
    getScoreGrade 90 = "AAA" ∧ getScoreGrade 89 = "AA" :=
  ⟨(getScoreGrade_table 90).1 (by norm_num),
   (getScoreGrade_table 89).2.1 ⟨by norm_num, by norm_num⟩⟩

/-- C5: `getRiskLevel` follows the fixed bands: ≥80 "Low Risk",
60–79 "Medium Risk", below 60 "High Risk". -/
theorem getRiskLevel_table (s : ℚ) :
    (80 ≤ s → (getRiskLevel s).level = "Low Risk") ∧
    (60 ≤ s ∧ s < 80 → (getRiskLevel s).level = "Medium Risk") ∧
    (s < 60 → (getRiskLevel s).level = "High Risk") := by
  unfold getRiskLevel
  refine ⟨?_, ?_, ?_⟩ <;> intro h <;> split_ifs <;>
    first
      | rfl
      | (exfalso; obtain ⟨h1, h2⟩ := h; linarith)
      | (exfalso; linarith)

/-- C5 witness: the bands at 80, 60 and 59. -/
theorem getRiskLevel_table_witness :
    (getRiskLevel 80).level = "Low Risk" ∧
    (getRiskLevel 60).level = "Medium Risk" ∧
    (getRiskLevel 59).level = "High Risk" :=
  ⟨(getRiskLevel_table 80).1 (by norm_num),
   (getRiskLevel_table 60).2.1 ⟨by norm_num, by norm_num⟩,
   (getRiskLevel_table 59).2.2 (by norm_num)⟩

/-- C10: grade bands and risk bands are mutually consistent: "Low Risk"
iff grade AAA or AA, "Medium Risk" iff grade A or BBB, "High Risk" iff
grade BB, B or CCC. -/
theorem risk_grade_consistent (s : ℚ) :
    ((getRiskLevel s).level = "Low Risk" ↔
      getScoreGrade s = "AAA" ∨ getScoreGrade s = "AA") ∧
    ((getRiskLevel s).level = "Medium Risk" ↔
      getScoreGrade s = "A" ∨ getScoreGrade s = "BBB") ∧
    ((getRiskLevel s).level = "High Risk" ↔
      getScoreGrade s = "BB" ∨ getScoreGrade s = "B" ∨
        getScoreGrade s = "CCC") := by
  unfold getRiskLevel getScoreGrade
  split_ifs <;> simp_all <;> linarith

/-- Clamping to `[0, 100]` is monotone. -/
theorem clamp_mono {a b : ℚ} (h : a ≤ b) :
    max 0 (min 100 a) ≤ max 0 (min 100 b) :=
  max_le_max le_rfl (min_le_min le_rfl h)

/-- C3: the calculator is total on arbitrary (rational) field values —
including zero or negative ratios — and always lands in `[0, 100]`; in
particular this holds for every record of the static data set. -/
theorem calculateCreditScore_range (c : Company) :
    0 ≤ calculateCreditScore c ∧ calculateCreditScore c ≤ 100 := by
  unfold calculateCreditScore
  exact ⟨le_max_left 0 _, max_le (by norm_num) (min_le_left 100 _)⟩

/-- C4: the calculator is monotone non-decreasing in `currentRatio`,
`roe` and `roa`, and non-increasing in `debtRatio`, other fields fixed. -/
theorem calculateCreditScore_monotone (c : Company) (x y : ℚ) (hxy : x ≤ y) :
    calculateCreditScore { c with currentRatio := x } ≤
      calculateCreditScore { c with currentRatio := y } ∧
    calculateCreditScore { c with roe := x } ≤
      calculateCreditScore { c with roe := y } ∧
    calculateCreditScore { c with roa := x } ≤
      calculateCreditScore { c with roa := y } ∧
    calculateCreditScore { c with debtRatio := y } ≤
      calculateCreditScore { c with debtRatio := x } := by
  unfold calculateCreditScore
  refine ⟨?_, ?_, ?_, ?_⟩ <;> (apply clamp_mono; dsimp only; linarith)

/-- C4 witness: monotonicity instantiated on the AAPL record at 0 ≤ 1. -/
theorem calculateCreditScore_monotone_witness :
    (0 : ℚ) ≤ 1 ∧
    calculateCreditScore { apple with currentRatio := 0 } ≤
      calculateCreditScore { apple with currentRatio := 1 } :=
  ⟨by norm_num, (calculateCreditScore_monotone apple 0 1 (by norm_num)).1⟩

/-- C8: the calculator is deterministic: two invocations on the same
record (no hidden state) yield the same score. -/
theorem calculateCreditScore_deterministic (c₁ c₂ : Company) (h : c₁ = c₂) :
    calculateCreditScore c₁ = calculateCreditScore c₂ := by rw [h]

/-- C8 witness: determinism instantiated on the AAPL record. -/
theorem calculateCreditScore_deterministic_witness :
    calculateCreditScore apple = calculateCreditScore apple :=
  calculateCreditScore_deterministic apple apple rfl

/-- C2: selecting a ticker that matches no record of the static list
leaves both state fields exactly unchanged (a no-op, no crash). -/
theorem handleCompanySelect_notFound (st : AppState) (T : String)
    (h : ∀ c ∈ companies, c.ticker ≠ T) :
    (handleCompanySelect T st).selectedCompany = st.selectedCompany ∧
    (handleCompanySelect T st).creditScore = st.creditScore ∧
    handleCompanySelect T st = st := by
  have hn : companies.find? (fun c => c.ticker == T) = none := by
    rw [List.find?_eq_none]
    intro c hc
    simpa using h c hc
  have : handleCompanySelect T st = st := by
    unfold handleCompanySelect
    rw [hn]
  exact ⟨by rw [this], by rw [this], this⟩

/-- C2 witness: the ticker "TSLA" is absent from the list, and selecting
it from the initial state is a no-op. -/
theorem handleCompanySelect_notFound_witness :
    (∀ c ∈ companies, c.ticker ≠ "TSLA") ∧
    handleCompanySelect "TSLA" initialState = initialState :=
  ⟨by decide, (handleCompanySelect_notFound initialState "TSLA" (by decide)).2.2⟩

/-- C6: selecting a ticker present in the list replaces both state
fields wholesale: the found record becomes the selection and its freshly
computed score becomes the credit score; the found record is in the
static list and carries that ticker. -/
theorem handleCompanySelect_found (st : AppState) (T : String) (c : Company)
    (h : companies.find? (fun x => x.ticker == T) = some c) :
    handleCompanySelect T st = ⟨some c, some (calculateCreditScore c)⟩ ∧
    c ∈ companies ∧ c.ticker = T := by
  refine ⟨?_, List.mem_of_find?_eq_some h, ?_⟩
  · unfold handleCompanySelect
    rw [h]
  · simpa using List.find?_some h

/-- C6 witness: selecting "AAPL" from the initial state lands on the
AAPL record with its computed score. -/
theorem handleCompanySelect_found_witness :
    companies.find? (fun x => x.ticker == "AAPL") = some apple ∧
    handleCompanySelect "AAPL" initialState =
      ⟨some apple, some (calculateCreditScore apple)⟩ :=
  ⟨by rfl, (handleCompanySelect_found initialState "AAPL" apple (by rfl)).1⟩

/-- C9: the selection transition is idempotent: selecting the same
ticker twice in a row yields the same state as selecting it once. -/
theorem handleCompanySelect_idem (st : AppState) (T : String) :
    handleCompanySelect T (handleCompanySelect T st) =
      handleCompanySelect T st := by
  cases h : companies.find? (fun c => c.ticker == T) with
  | none => simp [handleCompanySelect, h]
  | some c => simp [handleCompanySelect, h]

/-- The coordinator invariant is preserved by a single selection. -/
theorem handleCompanySelect_invariant (T : String) (st : AppState)
    (h : st = initialState ∨
      ∃ c ∈ companies, st = ⟨some c, some (calculateCreditScore c)⟩) :
    handleCompanySelect T st = initialState ∨
      ∃ c ∈ companies,
        handleCompanySelect T st = ⟨some c, some (calculateCreditScore c)⟩ := by
  unfold handleCompanySelect
  split
  next c hf => exact Or.inr ⟨c, List.mem_of_find?_eq_some hf, rfl⟩
  next hf => exact h

/-- C7: every state reachable from the initial state by any sequence of
selection events is either the empty state (nothing selected, no score)
or a record of the static list paired with exactly its computed score. -/
theorem runSelects_reachable (events : List String) :
    runSelects events = initialState ∨
    ∃ c ∈ companies,
      runSelects events = ⟨some c, some (calculateCreditScore c)⟩ := by
  have key : ∀ (evs : List String) (st : AppState),
      (st = initialState ∨
        ∃ c ∈ companies, st = ⟨some c, some (calculateCreditScore c)⟩) →
      (evs.foldl (fun s t => handleCompanySelect t s) st = initialState ∨
        ∃ c ∈ companies,
          evs.foldl (fun s t => handleCompanySelect t s) st =
            ⟨some c, some (calculateCreditScore c)⟩) := by
    intro evs
    induction evs with
    | nil => intro st h; exact h
    | cons t ts ih =>
        intro st h
        exact ih _ (handleCompanySelect_invariant t st h)
  exact key events initialState (Or.inl rfl)

end CredTech
